import Mathlib

/-!
Shallow embedding of the terraform-provider-rgw resource handlers.

Each Go CRUD handler is modelled as a pure Lean function from the decoded
resource model (the data obtained from `req.Plan.Get` / `req.State.Get`) and
the result of the single admin-API call it performs, to the list of admin-API
calls it issued together with its outcome (diagnostics added, state removed,
or state written).  Terraform framework nullable values (`types.String`,
`types.Int64`, `types.Bool`) are modelled as `Option`, with the framework's
zero-value semantics for `ValueString` / `ValueInt64` / `ValueBool` on null.
-/

namespace TerraformRgw

/-- Models `types.String`: null or a known string. -/
abbrev TfString := Option String

/-- Models `types.Int64`: null or a known 64-bit integer. -/
abbrev TfInt64 := Option Int

/-- Models `types.Bool`: null or a known boolean. -/
abbrev TfBool := Option Bool

/-- Models `types.String.ValueString`: the zero value `""` on null. -/
def tfStringValue (s : TfString) : String := s.getD ""

/-- Models `types.Int64.ValueInt64`: the zero value `0` on null. -/
def tfInt64Value (i : TfInt64) : Int := i.getD 0

/-- Models `types.Bool.ValueBool`: the zero value `false` on null. -/
def tfBoolValue (b : TfBool) : Bool := b.getD false

/-- Models `IsNull` on any terraform value. -/
def tfIsNull {α : Type} (v : Option α) : Bool := v.isNone

/-- Two's-complement wrap-around into Go's int64 range, the behaviour of Go
int64 arithmetic on overflow: the balanced residue of `n` modulo `2 ^ 64`,
lying in `[-2 ^ 63, 2 ^ 63)`. -/
def wrapInt64 (n : Int) : Int := Int.bmod n (2 ^ 64)

/-- Errors returned by the go-ceph admin client.  The two sentinel errors
the provider distinguishes with `errors.Is` are `admin.ErrNoSuchUser` and
`admin.ErrNoSuchBucket`; every other remote error is `other`. -/
inductive AdminError where
  | noSuchUser
  | noSuchBucket
  | other (msg : String)
deriving DecidableEq, Repr

/-- Models `errors.Is(e, admin.ErrNoSuchUser)`. -/
def AdminError.isNoSuchUser : AdminError → Bool
  | .noSuchUser => true
  | _ => false

/-- Models `errors.Is(e, admin.ErrNoSuchBucket)`. -/
def AdminError.isNoSuchBucket : AdminError → Bool
  | .noSuchBucket => true
  | _ => false

/-- Models `err != nil && errors.Is(err, admin.ErrNoSuchUser)` over an optional error. -/
def errsIsNoSuchUser : Option AdminError → Bool
  | some e => e.isNoSuchUser
  | none => false

/-- Models `err != nil && errors.Is(err, admin.ErrNoSuchBucket)` over an optional error. -/
def errsIsNoSuchBucket : Option AdminError → Bool
  | some e => e.isNoSuchBucket
  | none => false

/-- Models `admin.QuotaSpec` (the fields this provider touches).  Pointer fields are
`Option`; absent fields are `none`, matching the Go zero value `nil`. -/
structure QuotaSpec where
  uid : String := ""
  quotaType : String := ""
  bucket : String := ""
  enabled : Option Bool := none
  checkOnRaw : Bool := false
  maxSize : Option Int := none
  maxSizeKb : Option Int := none
  maxObjects : Option Int := none
deriving DecidableEq, Repr

/-- Models `admin.BucketLinkInput`. -/
structure BucketLinkInput where
  bucket : String
  uid : String
deriving DecidableEq, Repr

/-- Models `admin.Bucket` as used by `BucketQuotaResource.Read`: only the quota
sub-struct is consulted. -/
structure BucketInfo where
  bucket : String := ""
  bucketQuota : QuotaSpec := {}
deriving DecidableEq, Repr

/-- One admin-API invocation, with the request the handler actually built. -/
inductive AdminCall where
  | setUserQuota (q : QuotaSpec)
  | setBucketQuota (q : QuotaSpec)
  | setIndividualBucketQuota (q : QuotaSpec)
  | getUserQuota (q : QuotaSpec)
  | getBucketQuota (q : QuotaSpec)
  | getBucketInfo (bucket : String)
  | linkBucket (l : BucketLinkInput)
  | unlinkBucket (l : BucketLinkInput)
  | listUsersBuckets (uid : String)
deriving DecidableEq, Repr

/-- The admin-client method name of a call, to compare which setter two
handlers use independently of the request payload. -/
def AdminCall.setterName : AdminCall → String
  | .setUserQuota _ => "SetUserQuota"
  | .setBucketQuota _ => "SetBucketQuota"
  | .setIndividualBucketQuota _ => "SetIndividualBucketQuota"
  | .getUserQuota _ => "GetUserQuota"
  | .getBucketQuota _ => "GetBucketQuota"
  | .getBucketInfo _ => "GetBucketInfo"
  | .linkBucket _ => "LinkBucket"
  | .unlinkBucket _ => "UnlinkBucket"
  | .listUsersBuckets _ => "ListUsersBuckets"

/-- Outcome of a Read handler: `removed` is `resp.State.RemoveResource` with
no diagnostic; `errored msg` is `resp.Diagnostics.AddError(msg, ...)` followed
by return with the prior state untouched; `saved s` is `resp.State.Set` with
the updated model `s`. -/
inductive ReadOutcome (σ : Type) where
  | removed
  | errored (msg : String)
  | saved (s : σ)
deriving DecidableEq, Repr

/-- Outcome of a Create/Update handler: `errored msg` is a diagnostic and an
early return before any `resp.State.Set`; `saved s` is `resp.State.Set s`. -/
inductive WriteOutcome (σ : Type) where
  | errored (msg : String)
  | saved (s : σ)
deriving DecidableEq, Repr

namespace UserQuotaGo

/-- Models `UserQuotaResourceModel` (user_quota.go). -/
structure Model where
  uid : TfString
  enabled : TfBool
  checkOnRaw : TfBool
  maxSize : TfInt64
  maxSizeKB : TfInt64
  maxObjects : TfInt64
deriving DecidableEq, Repr

/-- Models `rgwQuotaFromSchemaQuota` (user_quota.go): include each optional field
exactly when the model field is non-null. -/
def rgwQuotaFromSchemaQuota (data : Model) : QuotaSpec :=
  let quota : QuotaSpec :=
    { uid := tfStringValue data.uid
      quotaType := "user"
      enabled := some (tfBoolValue data.enabled)
      checkOnRaw := tfBoolValue data.checkOnRaw }
  let quota := if !(tfIsNull data.maxSize) then
      { quota with maxSize := some (tfInt64Value data.maxSize) } else quota
  let quota := if !(tfIsNull data.maxSizeKB) then
      { quota with maxSizeKb := some (tfInt64Value data.maxSizeKB) } else quota
  let quota := if !(tfIsNull data.maxObjects) then
      { quota with maxObjects := some (tfInt64Value data.maxObjects) } else quota
  quota

/-- Models `UserQuotaResource.Create`, after plan decode: one `SetUserQuota` call;
`err` is that call's result. -/
def create (data : Model) (err : Option AdminError) :
    List AdminCall × WriteOutcome Model :=
  let quota := rgwQuotaFromSchemaQuota data
  ([AdminCall.setUserQuota quota],
    match err with
    | some _ => .errored "could not create user quota"
    | none => .saved data)

/-- The per-field copy of the returned `QuotaSpec` into the model performed by
`UserQuotaResource.Read`: each optional field overwritten only when the
response pointer is non-nil; `CheckOnRaw` always overwritten. -/
def applyQuotaSpec (data : Model) (q : QuotaSpec) : Model :=
  let data := match q.enabled with
    | some b => { data with enabled := some b }
    | none => data
  let data := { data with checkOnRaw := some q.checkOnRaw }
  let data := match q.maxSize with
    | some v => { data with maxSize := some v }
    | none => data
  let data := match q.maxSizeKb with
    | some v => { data with maxSizeKB := some v }
    | none => data
  let data := match q.maxObjects with
    | some v => { data with maxObjects := some v }
    | none => data
  data

/-- Models `UserQuotaResource.Read`, after state decode: one `GetUserQuota` call;
`res` is that call's result. -/
def read (data : Model) (res : Except AdminError QuotaSpec) :
    List AdminCall × ReadOutcome Model :=
  let reqQuotaSpec : QuotaSpec := { uid := tfStringValue data.uid }
  ([AdminCall.getUserQuota reqQuotaSpec],
    match res with
    | .error e =>
      if e.isNoSuchUser then .removed
      else .errored "could not get user quota"
    | .ok quotaSpec =>
      if tfStringValue data.uid ≠ quotaSpec.uid then
        .errored "api returned wrong user"
      else .saved (applyQuotaSpec data quotaSpec))

/-- Models `UserQuotaResource.Update`, after plan decode. -/
def update (data : Model) (err : Option AdminError) :
    List AdminCall × WriteOutcome Model :=
  let quota := rgwQuotaFromSchemaQuota data
  ([AdminCall.setUserQuota quota],
    match err with
    | some _ => .errored "could not modify user quota"
    | none => .saved data)

/-- The request `UserQuotaResource.Delete` sends: the Create/Update request
with `Enabled` forced to false. -/
def deleteQuota (data : Model) : QuotaSpec :=
  let quota := rgwQuotaFromSchemaQuota data
  { quota with enabled := some false }

/-- Models `UserQuotaResource.Delete`, after state decode: one `SetUserQuota` call;
the second error check mirrors the source's dominated branch verbatim. -/
def delete (data : Model) (err : Option AdminError) :
    List AdminCall × List String :=
  let quota := deleteQuota data
  ([AdminCall.setUserQuota quota],
    if err.isSome then ["could not modify user quota"]
    else if err.isSome && !(errsIsNoSuchUser err) then
      ["could not delete user quota"]
    else [])

end UserQuotaGo

namespace QuotaGo

/-- Models `QuotaResourceModel` (the generic user/bucket quota resource). -/
structure Model where
  uid : TfString
  type : TfString
  enabled : TfBool
  checkOnRaw : TfBool
  maxSize : TfInt64
  maxSizeKB : TfInt64
  maxObjects : TfInt64
deriving DecidableEq, Repr

/-- Models `rgwQuotaFromSchemaQuota` (generic quota resource): `max_size_kb` null or
zero means size quota disabled, carried as `MaxSize = -1`. -/
def rgwQuotaFromSchemaQuota (data : Model) : QuotaSpec :=
  let quota : QuotaSpec :=
    { uid := tfStringValue data.uid
      quotaType := tfStringValue data.type
      enabled := some (tfBoolValue data.enabled)
      checkOnRaw := tfBoolValue data.checkOnRaw }
  let quota := if !(tfIsNull data.maxSizeKB) && (tfInt64Value data.maxSizeKB != 0) then
      { quota with maxSizeKb := some (tfInt64Value data.maxSizeKB) }
    else
      { quota with maxSize := some (-1) }
  let quota := if !(tfIsNull data.maxObjects) then
      { quota with maxObjects := some (tfInt64Value data.maxObjects) } else quota
  quota

/-- The `max_size` value the Create/Update handlers write back to state.
The source computes `data.MaxSizeKB.ValueInt64() * 1024` in Go int64, which
wraps two's-complement on overflow, so the product is wrapped here. -/
def savedMaxSize (data : Model) : Model :=
  if tfInt64Value data.maxSizeKB != 0 then
    { data with maxSize := some (wrapInt64 (tfInt64Value data.maxSizeKB * 1024)) }
  else
    { data with maxSize := some (-1) }

/-- Models `QuotaResource.Create`, after plan decode: the setter is chosen by the
`type` attribute; `err` is the chosen call's result. -/
def create (data : Model) (err : Option AdminError) :
    List AdminCall × WriteOutcome Model :=
  let quota := rgwQuotaFromSchemaQuota data
  let call := if tfStringValue data.type == "user" then
      AdminCall.setUserQuota quota
    else
      AdminCall.setBucketQuota quota
  ([call],
    match err with
    | some _ => .errored "could not create user quota"
    | none => .saved (savedMaxSize data))

/-- The per-field copy of the returned `QuotaSpec` into the model performed by
`QuotaResource.Read`. -/
def applyQuotaSpec (data : Model) (q : QuotaSpec) : Model :=
  let data := match q.enabled with
    | some b => { data with enabled := some b }
    | none => data
  let data := { data with checkOnRaw := some q.checkOnRaw }
  let data := match q.maxSize with
    | some v => { data with maxSize := some v }
    | none => data
  let data := match q.maxSizeKb with
    | some v => { data with maxSizeKB := some v }
    | none => data
  let data := match q.maxObjects with
    | some v => { data with maxObjects := some v }
    | none => data
  data

/-- Models `QuotaResource.Read`, after state decode: one getter call chosen by the
`type` attribute; `res` is its result. -/
def read (data : Model) (res : Except AdminError QuotaSpec) :
    List AdminCall × ReadOutcome Model :=
  let reqQuotaSpec : QuotaSpec := { uid := tfStringValue data.uid }
  let call := if tfStringValue data.type == "user" then
      AdminCall.getUserQuota reqQuotaSpec
    else
      AdminCall.getBucketQuota reqQuotaSpec
  ([call],
    match res with
    | .error e =>
      if e.isNoSuchUser then .removed
      else .errored "could not get user quota"
    | .ok quotaSpec => .saved (applyQuotaSpec data quotaSpec))

/-- Models `QuotaResource.Update`, after plan decode. -/
def update (data : Model) (err : Option AdminError) :
    List AdminCall × WriteOutcome Model :=
  let quota := rgwQuotaFromSchemaQuota data
  let call := if tfStringValue data.type == "user" then
      AdminCall.setUserQuota quota
    else
      AdminCall.setBucketQuota quota
  ([call],
    match err with
    | some _ => .errored "could not modify user quota"
    | none => .saved (savedMaxSize data))

/-- The request `QuotaResource.Delete` sends: the Create/Update request with
`Enabled = false`, `MaxSize = -1`, `MaxSizeKb` dropped, `MaxObjects = -1`. -/
def deleteQuota (data : Model) : QuotaSpec :=
  let quota := rgwQuotaFromSchemaQuota data
  { quota with
      enabled := some false
      maxSize := some (-1)
      maxSizeKb := none
      maxObjects := some (-1) }

/-- Models `QuotaResource.Delete`, after state decode: one setter call chosen by the
`type` attribute; the second error check mirrors the source's dominated
branch verbatim. -/
def delete (data : Model) (err : Option AdminError) :
    List AdminCall × List String :=
  let quota := deleteQuota data
  let call := if tfStringValue data.type == "user" then
      AdminCall.setUserQuota quota
    else
      AdminCall.setBucketQuota quota
  ([call],
    if err.isSome then ["could not modify user quota"]
    else if err.isSome && !(errsIsNoSuchUser err) then
      ["could not delete user quota"]
    else [])

end QuotaGo

namespace BucketQuotaGo

/-- Models `BucketQuotaResourceModel` (bucket_quota_resource.go). -/
structure Model where
  bucket : TfString
  uid : TfString
  enabled : TfBool
  checkOnRaw : TfBool
  maxSize : TfInt64
  maxSizeKB : TfInt64
  maxObjects : TfInt64
deriving DecidableEq, Repr

/-- Models `rgwBucketQuotaFromSchemaQuota`: `max_size_kb` null or zero means size
quota disabled, carried as `MaxSize = -1`. -/
def rgwBucketQuotaFromSchemaQuota (data : Model) : QuotaSpec :=
  let quota : QuotaSpec :=
    { bucket := tfStringValue data.bucket
      uid := tfStringValue data.uid
      enabled := some (tfBoolValue data.enabled)
      checkOnRaw := tfBoolValue data.checkOnRaw }
  let quota := if !(tfIsNull data.maxSizeKB) && (tfInt64Value data.maxSizeKB != 0) then
      { quota with maxSizeKb := some (tfInt64Value data.maxSizeKB) }
    else
      { quota with maxSize := some (-1) }
  let quota := if !(tfIsNull data.maxObjects) then
      { quota with maxObjects := some (tfInt64Value data.maxObjects) } else quota
  quota

/-- The `max_size` value the Create/Update handlers write back to state.
The source computes `data.MaxSizeKB.ValueInt64() * 1024` in Go int64, which
wraps two's-complement on overflow, so the product is wrapped here. -/
def savedMaxSize (data : Model) : Model :=
  if tfInt64Value data.maxSizeKB != 0 then
    { data with maxSize := some (wrapInt64 (tfInt64Value data.maxSizeKB * 1024)) }
  else
    { data with maxSize := some (-1) }

/-- Models `BucketQuotaResource.Create`, after plan decode: one
`SetIndividualBucketQuota` call; `err` is that call's result. -/
def create (data : Model) (err : Option AdminError) :
    List AdminCall × WriteOutcome Model :=
  let quota := rgwBucketQuotaFromSchemaQuota data
  ([AdminCall.setIndividualBucketQuota quota],
    match err with
    | some _ => .errored "could not create bucket quota"
    | none => .saved (savedMaxSize data))

/-- The per-field copy of `bucket.BucketQuota` into the model performed by
`BucketQuotaResource.Read`. -/
def applyQuotaSpec (data : Model) (q : QuotaSpec) : Model :=
  let data := match q.enabled with
    | some b => { data with enabled := some b }
    | none => data
  let data := { data with checkOnRaw := some q.checkOnRaw }
  let data := match q.maxSize with
    | some v => { data with maxSize := some v }
    | none => data
  let data := match q.maxSizeKb with
    | some v => { data with maxSizeKB := some v }
    | none => data
  let data := match q.maxObjects with
    | some v => { data with maxObjects := some v }
    | none => data
  data

/-- Models `BucketQuotaResource.Read`, after state decode: one `GetBucketInfo` call;
`res` is that call's result. -/
def read (data : Model) (res : Except AdminError BucketInfo) :
    List AdminCall × ReadOutcome Model :=
  ([AdminCall.getBucketInfo (tfStringValue data.bucket)],
    match res with
    | .error e =>
      if e.isNoSuchBucket then .removed
      else .errored "could not get bucket quota"
    | .ok bucket => .saved (applyQuotaSpec data bucket.bucketQuota))

/-- Models `BucketQuotaResource.Update`, after plan decode. -/
def update (data : Model) (err : Option AdminError) :
    List AdminCall × WriteOutcome Model :=
  let quota := rgwBucketQuotaFromSchemaQuota data
  ([AdminCall.setIndividualBucketQuota quota],
    match err with
    | some _ => .errored "could not modify bucket quota"
    | none => .saved (savedMaxSize data))

/-- The request `BucketQuotaResource.Delete` sends: the Create/Update request
with `Enabled = false`, `MaxSize = -1`, `MaxSizeKb` dropped,
`MaxObjects = -1`. -/
def deleteQuota (data : Model) : QuotaSpec :=
  let quota := rgwBucketQuotaFromSchemaQuota data
  { quota with
      enabled := some false
      maxSize := some (-1)
      maxSizeKb := none
      maxObjects := some (-1) }

/-- Models `BucketQuotaResource.Delete`, after state decode: one
`SetIndividualBucketQuota` call; the second error check mirrors the source's
dominated branch verbatim. -/
def delete (data : Model) (err : Option AdminError) :
    List AdminCall × List String :=
  let quota := deleteQuota data
  ([AdminCall.setIndividualBucketQuota quota],
    if err.isSome then ["could not modify bucket quota"]
    else if err.isSome && !(errsIsNoSuchBucket err) then
      ["could not delete bucket quota"]
    else [])

end BucketQuotaGo

namespace BucketLinkGo

/-- Models `BucketLinkResourceModel`. -/
structure Model where
  uid : TfString
  bucket : TfString
  unlinkToUid : TfString
deriving DecidableEq, Repr

/-- Models `BucketLinkResource.Create`, after plan decode: one `LinkBucket` call;
`err` is that call's result. -/
def create (data : Model) (err : Option AdminError) :
    List AdminCall × WriteOutcome Model :=
  let rgwBucketLink : BucketLinkInput :=
    { bucket := tfStringValue data.bucket, uid := tfStringValue data.uid }
  ([AdminCall.linkBucket rgwBucketLink],
    match err with
    | some _ => .errored "could not create bucket link"
    | none => .saved data)

/-- The `findString` closure of `BucketLinkResource.Read`: linear scan of the
slice for an exact match. -/
def findString (slice : List String) (str : String) : Bool :=
  match slice with
  | [] => false
  | item :: rest => if item = str then true else findString rest str

/-- Models `BucketLinkResource.Read`, after state decode: one `ListUsersBuckets`
call; `res` is that call's result. -/
def read (data : Model) (res : Except AdminError (List String)) :
    List AdminCall × ReadOutcome Model :=
  ([AdminCall.listUsersBuckets (tfStringValue data.uid)],
    match res with
    | .error e =>
      if e.isNoSuchUser then .removed
      else .errored "could not get user\x27s buckets"
    | .ok buckets =>
      if !(findString buckets (tfStringValue data.bucket)) then .removed
      else .saved data)

/-- Models `BucketLinkResource.Update`: no API call, state saved as planned. -/
def update (data : Model) : List AdminCall × WriteOutcome Model :=
  ([], .saved data)

/-- Models `BucketLinkResource.Delete`, after state decode: a single call, unlink
when `unlink_to_uid` is null, otherwise a re-link to `unlink_to_uid`; `err`
is that call's result. -/
def delete (data : Model) (err : Option AdminError) :
    List AdminCall × List String :=
  let call := if tfIsNull data.unlinkToUid then
      AdminCall.unlinkBucket
        { bucket := tfStringValue data.bucket, uid := tfStringValue data.uid }
    else
      AdminCall.linkBucket
        { bucket := tfStringValue data.bucket, uid := tfStringValue data.unlinkToUid }
  ([call],
    if err.isSome && !(errsIsNoSuchBucket err) then
      ["could not delete bucket link"]
    else [])

end BucketLinkGo

/-- Spec-side description of the Read copy-back: a state field is overwritten
by a response field exactly when the response pointer is non-nil. -/
def mergeField {α : Type} (old new : Option α) : Option α :=
  match new with
  | some v => some v
  | none => old

/-- Concrete user-quota model for closed evaluations. -/
def sampleUserQuota : UserQuotaGo.Model :=
  { uid := some "alice"
    enabled := some true
    checkOnRaw := some false
    maxSize := none
    maxSizeKB := some 8
    maxObjects := some 10 }

/-- Concrete generic-quota model for closed evaluations. -/
def sampleQuota : QuotaGo.Model :=
  { uid := some "alice"
    type := some "user"
    enabled := some true
    checkOnRaw := some false
    maxSize := none
    maxSizeKB := some 8
    maxObjects := some 10 }

/-- The state the generic-quota Create writes for `sampleQuota` on success. -/
def sampleQuotaSaved : QuotaGo.Model :=
  { sampleQuota with maxSize := some 8192 }

/-- Concrete generic-quota model whose `max_size_kb` is `2 ^ 60`, so the
int64 product `max_size_kb * 1024` overflows. -/
def sampleQuotaBig : QuotaGo.Model :=
  { uid := some "alice"
    type := some "user"
    enabled := some true
    checkOnRaw := some false
    maxSize := none
    maxSizeKB := some 1152921504606846976
    maxObjects := some 10 }

/-- The state the generic-quota Create writes for `sampleQuotaBig` on
success: the wrapped product `2 ^ 70 mod 2 ^ 64` is `0`. -/
def sampleQuotaBigSaved : QuotaGo.Model :=
  { sampleQuotaBig with maxSize := some 0 }

/-- Concrete admin-API quota response for closed evaluations. -/
def sampleQuotaSpec : QuotaSpec :=
  { uid := "alice"
    quotaType := "user"
    enabled := some false
    checkOnRaw := true
    maxSize := some 2048
    maxSizeKb := none
    maxObjects := some 7 }

/-- The state the user-quota Read writes for `sampleUserQuota` given the
response `sampleQuotaSpec`. -/
def sampleUserQuotaRead : UserQuotaGo.Model :=
  { uid := some "alice"
    enabled := some false
    checkOnRaw := some true
    maxSize := some 2048
    maxSizeKB := some 8
    maxObjects := some 7 }

/-- Claim C1: on every Read, the resource's not-found error
(`ErrNoSuchUser` for the user-quota, generic-quota and bucket-link reads,
`ErrNoSuchBucket` for the bucket-quota read) removes the resource from state
with no diagnostic, while every other error adds a diagnostic and leaves the
state unchanged. -/
theorem read_not_found_removes_state :
    ∀ (dU : UserQuotaGo.Model) (dG : QuotaGo.Model) (dB : BucketQuotaGo.Model)
      (dL : BucketLinkGo.Model) (e : AdminError),
      (UserQuotaGo.read dU (Except.error e)).2 =
        (if e.isNoSuchUser then ReadOutcome.removed
         else ReadOutcome.errored "could not get user quota") ∧
      (QuotaGo.read dG (Except.error e)).2 =
        (if e.isNoSuchUser then ReadOutcome.removed
         else ReadOutcome.errored "could not get user quota") ∧
      (BucketQuotaGo.read dB (Except.error e)).2 =
        (if e.isNoSuchBucket then ReadOutcome.removed
         else ReadOutcome.errored "could not get bucket quota") ∧
      (BucketLinkGo.read dL (Except.error e)).2 =
        (if e.isNoSuchUser then ReadOutcome.removed
         else ReadOutcome.errored "could not get user\x27s buckets") := by
  intro dU dG dB dL e
  refine ⟨?_, ?_, ?_, ?_⟩ <;> cases e <;>
    simp [UserQuotaGo.read, QuotaGo.read, BucketQuotaGo.read, BucketLinkGo.read,
      AdminError.isNoSuchUser, AdminError.isNoSuchBucket]

/-- Claim C2: each quota Delete issues no removal API call: it sends the same
setter used by Create and Update, with the request's `Enabled` forced to
false. -/
theorem quota_delete_reuses_setter :
    ∀ (dU : UserQuotaGo.Model) (dG : QuotaGo.Model) (dB : BucketQuotaGo.Model)
      (eC eD : Option AdminError),
      ((UserQuotaGo.delete dU eD).1.map AdminCall.setterName =
          (UserQuotaGo.create dU eC).1.map AdminCall.setterName ∧
        (UserQuotaGo.delete dU eD).1.map AdminCall.setterName =
          (UserQuotaGo.update dU eC).1.map AdminCall.setterName ∧
        (UserQuotaGo.delete dU eD).1 =
          [AdminCall.setUserQuota (UserQuotaGo.deleteQuota dU)] ∧
        (UserQuotaGo.deleteQuota dU).enabled = some false) ∧
      ((QuotaGo.delete dG eD).1.map AdminCall.setterName =
          (QuotaGo.create dG eC).1.map AdminCall.setterName ∧
        (QuotaGo.delete dG eD).1.map AdminCall.setterName =
          (QuotaGo.update dG eC).1.map AdminCall.setterName ∧
        (QuotaGo.delete dG eD).1 =
          [if tfStringValue dG.type == "user" then
              AdminCall.setUserQuota (QuotaGo.deleteQuota dG)
            else
              AdminCall.setBucketQuota (QuotaGo.deleteQuota dG)] ∧
        (QuotaGo.deleteQuota dG).enabled = some false) ∧
      ((BucketQuotaGo.delete dB eD).1.map AdminCall.setterName =
          (BucketQuotaGo.create dB eC).1.map AdminCall.setterName ∧
        (BucketQuotaGo.delete dB eD).1.map AdminCall.setterName =
          (BucketQuotaGo.update dB eC).1.map AdminCall.setterName ∧
        (BucketQuotaGo.delete dB eD).1 =
          [AdminCall.setIndividualBucketQuota (BucketQuotaGo.deleteQuota dB)] ∧
        (BucketQuotaGo.deleteQuota dB).enabled = some false) := by
  intro dU dG dB eC eD
  refine ⟨⟨rfl, rfl, rfl, rfl⟩, ⟨?_, ?_, rfl, rfl⟩, ⟨rfl, rfl, rfl, rfl⟩⟩ <;>
    cases hc : (tfStringValue dG.type == "user") <;>
      simp [QuotaGo.delete, QuotaGo.create, QuotaGo.update, hc,
        AdminCall.setterName]

/-- Claim C9: in every quota Delete handler the second, not-found-tolerant
error branch is dead: any setter error already produced the
"could not modify" diagnostic and returned, so the "could not delete"
diagnostic is never emitted. -/
theorem quota_delete_second_branch_dead :
    ∀ (dU : UserQuotaGo.Model) (dG : QuotaGo.Model) (dB : BucketQuotaGo.Model)
      (err : Option AdminError),
      ((UserQuotaGo.delete dU err).2 =
          if err.isSome then ["could not modify user quota"] else []) ∧
      "could not delete user quota" ∉ (UserQuotaGo.delete dU err).2 ∧
      ((QuotaGo.delete dG err).2 =
          if err.isSome then ["could not modify user quota"] else []) ∧
      "could not delete user quota" ∉ (QuotaGo.delete dG err).2 ∧
      ((BucketQuotaGo.delete dB err).2 =
          if err.isSome then ["could not modify bucket quota"] else []) ∧
      "could not delete bucket quota" ∉ (BucketQuotaGo.delete dB err).2 := by
  intro dU dG dB err
  cases err <;>
    refine ⟨?_, ?_, ?_, ?_, ?_, ?_⟩ <;>
      simp [UserQuotaGo.delete, QuotaGo.delete, BucketQuotaGo.delete]

/-- Claim C3 counterexample: the user-quota Delete handler, handed the
not-found error `ErrNoSuchUser` by the setter, adds the "could not modify
user quota" diagnostic instead of completing without one. -/
theorem notfound_uniform_tolerance_cex :
    (UserQuotaGo.delete sampleUserQuota (some AdminError.noSuchUser)).2 =
      ["could not modify user quota"] ∧
    (UserQuotaGo.delete sampleUserQuota (some AdminError.noSuchUser)).2 ≠ [] :=
  ⟨rfl, by decide⟩

/-- Claim C3 amended: a remote not-found error is treated as success-via-
absence only in the Read handlers and in the bucket-link Delete; the quota
Delete handlers and every Create and Update surface every remote error,
not-found included, as a diagnostic. -/
theorem notfound_tolerance_amended :
    ∀ (dU : UserQuotaGo.Model) (dG : QuotaGo.Model) (dB : BucketQuotaGo.Model)
      (dL : BucketLinkGo.Model) (e : AdminError),
      ((BucketLinkGo.delete dL (some e)).2 =
        if e.isNoSuchBucket then [] else ["could not delete bucket link"]) ∧
      (UserQuotaGo.delete dU (some e)).2 = ["could not modify user quota"] ∧
      (QuotaGo.delete dG (some e)).2 = ["could not modify user quota"] ∧
      (BucketQuotaGo.delete dB (some e)).2 = ["could not modify bucket quota"] ∧
      (UserQuotaGo.create dU (some e)).2 =
        WriteOutcome.errored "could not create user quota" ∧
      (UserQuotaGo.update dU (some e)).2 =
        WriteOutcome.errored "could not modify user quota" ∧
      (QuotaGo.create dG (some e)).2 =
        WriteOutcome.errored "could not create user quota" ∧
      (QuotaGo.update dG (some e)).2 =
        WriteOutcome.errored "could not modify user quota" ∧
      (BucketQuotaGo.create dB (some e)).2 =
        WriteOutcome.errored "could not create bucket quota" ∧
      (BucketQuotaGo.update dB (some e)).2 =
        WriteOutcome.errored "could not modify bucket quota" ∧
      (BucketLinkGo.create dL (some e)).2 =
        WriteOutcome.errored "could not create bucket link" ∧
      ((UserQuotaGo.read dU (Except.error e)).2 =
        if e.isNoSuchUser then ReadOutcome.removed
        else ReadOutcome.errored "could not get user quota") ∧
      ((BucketLinkGo.read dL (Except.error e)).2 =
        if e.isNoSuchUser then ReadOutcome.removed
        else ReadOutcome.errored "could not get user\x27s buckets") := by
  intro dU dG dB dL e
  cases e <;>
    simp [UserQuotaGo.delete, QuotaGo.delete, BucketQuotaGo.delete,
      BucketLinkGo.delete, UserQuotaGo.create, UserQuotaGo.update,
      QuotaGo.create, QuotaGo.update, BucketQuotaGo.create,
      BucketQuotaGo.update, BucketLinkGo.create, UserQuotaGo.read,
      BucketLinkGo.read, errsIsNoSuchBucket, AdminError.isNoSuchBucket,
      AdminError.isNoSuchUser]

/-- Claim C4: quota Create and Update add a diagnostic and skip the state
write on any setter error, and write the state exactly when the setter
succeeded. -/
theorem quota_write_requires_success :
    ∀ (dU : UserQuotaGo.Model) (dG : QuotaGo.Model) (dB : BucketQuotaGo.Model)
      (e : AdminError),
      (UserQuotaGo.create dU (some e)).2 =
        WriteOutcome.errored "could not create user quota" ∧
      (∃ s, (UserQuotaGo.create dU none).2 = WriteOutcome.saved s) ∧
      (UserQuotaGo.update dU (some e)).2 =
        WriteOutcome.errored "could not modify user quota" ∧
      (∃ s, (UserQuotaGo.update dU none).2 = WriteOutcome.saved s) ∧
      (QuotaGo.create dG (some e)).2 =
        WriteOutcome.errored "could not create user quota" ∧
      (∃ s, (QuotaGo.create dG none).2 = WriteOutcome.saved s) ∧
      (QuotaGo.update dG (some e)).2 =
        WriteOutcome.errored "could not modify user quota" ∧
      (∃ s, (QuotaGo.update dG none).2 = WriteOutcome.saved s) ∧
      (BucketQuotaGo.create dB (some e)).2 =
        WriteOutcome.errored "could not create bucket quota" ∧
      (∃ s, (BucketQuotaGo.create dB none).2 = WriteOutcome.saved s) ∧
      (BucketQuotaGo.update dB (some e)).2 =
        WriteOutcome.errored "could not modify bucket quota" ∧
      (∃ s, (BucketQuotaGo.update dB none).2 = WriteOutcome.saved s) := by
  intro dU dG dB e
  exact ⟨rfl, ⟨_, rfl⟩, rfl, ⟨_, rfl⟩, rfl, ⟨_, rfl⟩, rfl, ⟨_, rfl⟩,
    rfl, ⟨_, rfl⟩, rfl, ⟨_, rfl⟩⟩

/-- Size and object fields of the generic-quota request builder. -/
theorem quotaGeneric_request_size_fields (d : QuotaGo.Model) :
    (QuotaGo.rgwQuotaFromSchemaQuota d).maxSize =
      (if tfInt64Value d.maxSizeKB = 0 then some (-1) else none) ∧
    (QuotaGo.rgwQuotaFromSchemaQuota d).maxSizeKb =
      (if tfInt64Value d.maxSizeKB = 0 then none
       else some (tfInt64Value d.maxSizeKB)) ∧
    (QuotaGo.rgwQuotaFromSchemaQuota d).maxObjects = d.maxObjects := by
  obtain ⟨u, t, en, cr, ms, kb, mo⟩ := d
  cases kb with
  | none =>
    cases mo <;> simp [QuotaGo.rgwQuotaFromSchemaQuota, tfInt64Value, tfIsNull]
  | some v =>
    by_cases hv : v = 0 <;> cases mo <;>
      simp [QuotaGo.rgwQuotaFromSchemaQuota, tfInt64Value, tfIsNull, hv]

/-- Size and object fields of the bucket-quota request builder. -/
theorem quotaBucket_request_size_fields (d : BucketQuotaGo.Model) :
    (BucketQuotaGo.rgwBucketQuotaFromSchemaQuota d).maxSize =
      (if tfInt64Value d.maxSizeKB = 0 then some (-1) else none) ∧
    (BucketQuotaGo.rgwBucketQuotaFromSchemaQuota d).maxSizeKb =
      (if tfInt64Value d.maxSizeKB = 0 then none
       else some (tfInt64Value d.maxSizeKB)) ∧
    (BucketQuotaGo.rgwBucketQuotaFromSchemaQuota d).maxObjects =
      d.maxObjects := by
  obtain ⟨bu, u, en, cr, ms, kb, mo⟩ := d
  cases kb with
  | none =>
    cases mo <;>
      simp [BucketQuotaGo.rgwBucketQuotaFromSchemaQuota, tfInt64Value, tfIsNull]
  | some v =>
    by_cases hv : v = 0 <;> cases mo <;>
      simp [BucketQuotaGo.rgwBucketQuotaFromSchemaQuota, tfInt64Value,
        tfIsNull, hv]

/-- Claim C5: the generic-quota and bucket-quota request builders treat a
null or zero `max_size_kb` as size quota disabled (`MaxSize = -1`, no
`MaxSizeKb`), carry `MaxSizeKb` alone otherwise, and carry `MaxObjects`
exactly when `max_objects` is non-null. -/
theorem quota_request_size_fields :
    ∀ (dG : QuotaGo.Model) (dB : BucketQuotaGo.Model),
      ((QuotaGo.rgwQuotaFromSchemaQuota dG).maxSize =
        if tfInt64Value dG.maxSizeKB = 0 then some (-1) else none) ∧
      ((QuotaGo.rgwQuotaFromSchemaQuota dG).maxSizeKb =
        if tfInt64Value dG.maxSizeKB = 0 then none
        else some (tfInt64Value dG.maxSizeKB)) ∧
      (QuotaGo.rgwQuotaFromSchemaQuota dG).maxObjects = dG.maxObjects ∧
      ((BucketQuotaGo.rgwBucketQuotaFromSchemaQuota dB).maxSize =
        if tfInt64Value dB.maxSizeKB = 0 then some (-1) else none) ∧
      ((BucketQuotaGo.rgwBucketQuotaFromSchemaQuota dB).maxSizeKb =
        if tfInt64Value dB.maxSizeKB = 0 then none
        else some (tfInt64Value dB.maxSizeKB)) ∧
      (BucketQuotaGo.rgwBucketQuotaFromSchemaQuota dB).maxObjects =
        dB.maxObjects := by
  intro dG dB
  exact ⟨(quotaGeneric_request_size_fields dG).1,
    (quotaGeneric_request_size_fields dG).2.1,
    (quotaGeneric_request_size_fields dG).2.2,
    (quotaBucket_request_size_fields dB).1,
    (quotaBucket_request_size_fields dB).2.1,
    (quotaBucket_request_size_fields dB).2.2⟩

/-- Value of `max_size` in the state the generic-quota Create/Update writes back. -/
theorem quotaGeneric_savedMaxSize_maxSize (d : QuotaGo.Model) :
    (QuotaGo.savedMaxSize d).maxSize =
      some (if tfInt64Value d.maxSizeKB = 0 then -1
        else wrapInt64 (tfInt64Value d.maxSizeKB * 1024)) := by
  obtain ⟨u, t, en, cr, ms, kb, mo⟩ := d
  cases kb with
  | none => simp [QuotaGo.savedMaxSize, tfInt64Value]
  | some v =>
    by_cases hv : v = 0 <;> simp [QuotaGo.savedMaxSize, tfInt64Value, hv]

/-- Value of `max_size` in the state the bucket-quota Create/Update writes back. -/
theorem quotaBucket_savedMaxSize_maxSize (d : BucketQuotaGo.Model) :
    (BucketQuotaGo.savedMaxSize d).maxSize =
      some (if tfInt64Value d.maxSizeKB = 0 then -1
        else wrapInt64 (tfInt64Value d.maxSizeKB * 1024)) := by
  obtain ⟨bu, u, en, cr, ms, kb, mo⟩ := d
  cases kb with
  | none => simp [BucketQuotaGo.savedMaxSize, tfInt64Value]
  | some v =>
    by_cases hv : v = 0 <;> simp [BucketQuotaGo.savedMaxSize, tfInt64Value, hv]

/-- Claim C6 counterexample: at `max_size_kb = 2 ^ 60` the generic-quota
Create succeeds and, as the source's int64 product wraps, writes
`max_size = 0` rather than the mathematical product `max_size_kb * 1024`
the claim asserts. -/
theorem saved_max_size_overflow_cex :
    tfInt64Value sampleQuotaBig.maxSizeKB ≠ 0 ∧
    (QuotaGo.create sampleQuotaBig none).2 =
      WriteOutcome.saved sampleQuotaBigSaved ∧
    sampleQuotaBigSaved.maxSize = some 0 ∧
    sampleQuotaBigSaved.maxSize ≠
      some (tfInt64Value sampleQuotaBig.maxSizeKB * 1024) :=
  ⟨by decide, by decide, rfl, by decide⟩

/-- Claim C6 amended: every state the generic-quota and bucket-quota
Create/Update write on success carries as `max_size` the 64-bit
two's-complement wrap of `max_size_kb * 1024` when `max_size_kb` is non-zero
(the int64 product the source computes), and `-1` when it is zero or null. -/
theorem saved_max_size_from_kb :
    (∀ (d s : QuotaGo.Model),
      (QuotaGo.create d none).2 = WriteOutcome.saved s →
        s.maxSize = some (if tfInt64Value d.maxSizeKB = 0 then -1
          else wrapInt64 (tfInt64Value d.maxSizeKB * 1024))) ∧
    (∀ (d s : QuotaGo.Model),
      (QuotaGo.update d none).2 = WriteOutcome.saved s →
        s.maxSize = some (if tfInt64Value d.maxSizeKB = 0 then -1
          else wrapInt64 (tfInt64Value d.maxSizeKB * 1024))) ∧
    (∀ (d s : BucketQuotaGo.Model),
      (BucketQuotaGo.create d none).2 = WriteOutcome.saved s →
        s.maxSize = some (if tfInt64Value d.maxSizeKB = 0 then -1
          else wrapInt64 (tfInt64Value d.maxSizeKB * 1024))) ∧
    (∀ (d s : BucketQuotaGo.Model),
      (BucketQuotaGo.update d none).2 = WriteOutcome.saved s →
        s.maxSize = some (if tfInt64Value d.maxSizeKB = 0 then -1
          else wrapInt64 (tfInt64Value d.maxSizeKB * 1024))) := by
  refine ⟨?_, ?_, ?_, ?_⟩ <;> intro d s h
  · simp [QuotaGo.create] at h
    exact h ▸ quotaGeneric_savedMaxSize_maxSize d
  · simp [QuotaGo.update] at h
    exact h ▸ quotaGeneric_savedMaxSize_maxSize d
  · simp [BucketQuotaGo.create] at h
    exact h ▸ quotaBucket_savedMaxSize_maxSize d
  · simp [BucketQuotaGo.update] at h
    exact h ▸ quotaBucket_savedMaxSize_maxSize d

/-- Witness for C6 at a concrete input: `max_size_kb = 8` yields
`max_size = 8192` in the written state. -/
theorem saved_max_size_from_kb_witness :
    (QuotaGo.create sampleQuota none).2 = WriteOutcome.saved sampleQuotaSaved ∧
    sampleQuotaSaved.maxSize =
      some (if tfInt64Value sampleQuota.maxSizeKB = 0 then -1
        else wrapInt64 (tfInt64Value sampleQuota.maxSizeKB * 1024)) :=
  ⟨by decide, saved_max_size_from_kb.1 sampleQuota sampleQuotaSaved (by decide)⟩

/-- Claim C7: bucket-link Delete issues exactly one call, an unlink of
(bucket, uid) when `unlink_to_uid` is null and otherwise a re-link of the
bucket to `unlink_to_uid`; `ErrNoSuchBucket` is tolerated and any other
error yields the diagnostic. -/
theorem bucket_link_delete_single_call :
    ∀ (d : BucketLinkGo.Model) (err : Option AdminError),
      (BucketLinkGo.delete d err).1 =
        [if tfIsNull d.unlinkToUid then
            AdminCall.unlinkBucket
              { bucket := tfStringValue d.bucket, uid := tfStringValue d.uid }
          else
            AdminCall.linkBucket
              { bucket := tfStringValue d.bucket
                uid := tfStringValue d.unlinkToUid }] ∧
      (BucketLinkGo.delete d err).2 =
        (match err with
          | some e =>
            if e.isNoSuchBucket then [] else ["could not delete bucket link"]
          | none => []) := by
  intro d err
  refine ⟨rfl, ?_⟩
  cases err with
  | none => rfl
  | some e =>
    cases e <;>
      simp [BucketLinkGo.delete, errsIsNoSuchBucket, AdminError.isNoSuchBucket]

/-- The `findString` scan finds exactly the members of the slice. -/
theorem findString_true_iff (slice : List String) (str : String) :
    BucketLinkGo.findString slice str = true ↔ str ∈ slice := by
  induction slice with
  | nil => simp [BucketLinkGo.findString]
  | cons a l ih =>
    by_cases ha : a = str <;> simp [BucketLinkGo.findString, ha, ih]
    exact fun h => (ha h.symm).elim

/-- Claim C8: bucket-link Read with a successful bucket listing removes the
resource from state when the stored bucket is not in the list and re-saves
the state unchanged when it is. -/
theorem bucket_link_read_reconciles :
    ∀ (d : BucketLinkGo.Model) (buckets : List String),
      (BucketLinkGo.read d (Except.ok buckets)).2 =
        if tfStringValue d.bucket ∈ buckets then ReadOutcome.saved d
        else ReadOutcome.removed := by
  intro d buckets
  cases hf : BucketLinkGo.findString buckets (tfStringValue d.bucket) with
  | false =>
    have hm : tfStringValue d.bucket ∉ buckets := by
      intro hmem
      rw [(findString_true_iff _ _).mpr hmem] at hf
      exact Bool.noConfusion hf
    simp [BucketLinkGo.read, hf, hm]
  | true =>
    have hm : tfStringValue d.bucket ∈ buckets := (findString_true_iff _ _).mp hf
    simp [BucketLinkGo.read, hf, hm]

/-- Field-level behaviour of the user-quota Read copy-back. -/
theorem userQuota_applyQuotaSpec_fields (d : UserQuotaGo.Model)
    (q : QuotaSpec) :
    (UserQuotaGo.applyQuotaSpec d q).uid = d.uid ∧
    (UserQuotaGo.applyQuotaSpec d q).enabled = mergeField d.enabled q.enabled ∧
    (UserQuotaGo.applyQuotaSpec d q).maxSize = mergeField d.maxSize q.maxSize ∧
    (UserQuotaGo.applyQuotaSpec d q).maxSizeKB =
      mergeField d.maxSizeKB q.maxSizeKb ∧
    (UserQuotaGo.applyQuotaSpec d q).maxObjects =
      mergeField d.maxObjects q.maxObjects := by
  obtain ⟨u, en, cr, ms, kb, mo⟩ := d
  obtain ⟨qu, qt, qb, qe, qc, qms, qkb, qmo⟩ := q
  cases qe <;> cases qms <;> cases qkb <;> cases qmo <;>
    simp [UserQuotaGo.applyQuotaSpec, mergeField]

/-- Field-level behaviour of the generic-quota Read copy-back. -/
theorem quotaGeneric_applyQuotaSpec_fields (d : QuotaGo.Model) (q : QuotaSpec) :
    (QuotaGo.applyQuotaSpec d q).uid = d.uid ∧
    (QuotaGo.applyQuotaSpec d q).type = d.type ∧
    (QuotaGo.applyQuotaSpec d q).enabled = mergeField d.enabled q.enabled ∧
    (QuotaGo.applyQuotaSpec d q).maxSize = mergeField d.maxSize q.maxSize ∧
    (QuotaGo.applyQuotaSpec d q).maxSizeKB =
      mergeField d.maxSizeKB q.maxSizeKb ∧
    (QuotaGo.applyQuotaSpec d q).maxObjects =
      mergeField d.maxObjects q.maxObjects := by
  obtain ⟨u, t, en, cr, ms, kb, mo⟩ := d
  obtain ⟨qu, qt, qb, qe, qc, qms, qkb, qmo⟩ := q
  cases qe <;> cases qms <;> cases qkb <;> cases qmo <;>
    simp [QuotaGo.applyQuotaSpec, mergeField]

/-- Field-level behaviour of the bucket-quota Read copy-back. -/
theorem quotaBucket_applyQuotaSpec_fields (d : BucketQuotaGo.Model)
    (q : QuotaSpec) :
    (BucketQuotaGo.applyQuotaSpec d q).bucket = d.bucket ∧
    (BucketQuotaGo.applyQuotaSpec d q).uid = d.uid ∧
    (BucketQuotaGo.applyQuotaSpec d q).enabled =
      mergeField d.enabled q.enabled ∧
    (BucketQuotaGo.applyQuotaSpec d q).maxSize =
      mergeField d.maxSize q.maxSize ∧
    (BucketQuotaGo.applyQuotaSpec d q).maxSizeKB =
      mergeField d.maxSizeKB q.maxSizeKb ∧
    (BucketQuotaGo.applyQuotaSpec d q).maxObjects =
      mergeField d.maxObjects q.maxObjects := by
  obtain ⟨bu, u, en, cr, ms, kb, mo⟩ := d
  obtain ⟨qu, qt, qb, qe, qc, qms, qkb, qmo⟩ := q
  cases qe <;> cases qms <;> cases qkb <;> cases qmo <;>
    simp [BucketQuotaGo.applyQuotaSpec, mergeField]

/-- Claim C10: no quota Read changes the identifier fields of the state; the
user-quota Read aborts with the "api returned wrong user" diagnostic when
the response UID differs from the stored one; and every state a quota Read
writes overwrites the optional fields only where the response pointer is
non-nil, keeping the prior values elsewhere. -/
theorem quota_read_preserves_identifiers :
    (∀ (d d2 : UserQuotaGo.Model) (res : Except AdminError QuotaSpec),
      (UserQuotaGo.read d res).2 = ReadOutcome.saved d2 → d2.uid = d.uid) ∧
    (∀ (d : UserQuotaGo.Model) (q : QuotaSpec),
      tfStringValue d.uid ≠ q.uid →
        (UserQuotaGo.read d (Except.ok q)).2 =
          ReadOutcome.errored "api returned wrong user") ∧
    (∀ (d d2 : UserQuotaGo.Model) (q : QuotaSpec),
      (UserQuotaGo.read d (Except.ok q)).2 = ReadOutcome.saved d2 →
        d2.enabled = mergeField d.enabled q.enabled ∧
        d2.maxSize = mergeField d.maxSize q.maxSize ∧
        d2.maxSizeKB = mergeField d.maxSizeKB q.maxSizeKb ∧
        d2.maxObjects = mergeField d.maxObjects q.maxObjects) ∧
    (∀ (d d2 : QuotaGo.Model) (res : Except AdminError QuotaSpec),
      (QuotaGo.read d res).2 = ReadOutcome.saved d2 →
        d2.uid = d.uid ∧ d2.type = d.type) ∧
    (∀ (d d2 : QuotaGo.Model) (q : QuotaSpec),
      (QuotaGo.read d (Except.ok q)).2 = ReadOutcome.saved d2 →
        d2.enabled = mergeField d.enabled q.enabled ∧
        d2.maxSize = mergeField d.maxSize q.maxSize ∧
        d2.maxSizeKB = mergeField d.maxSizeKB q.maxSizeKb ∧
        d2.maxObjects = mergeField d.maxObjects q.maxObjects) ∧
    (∀ (d d2 : BucketQuotaGo.Model) (res : Except AdminError BucketInfo),
      (BucketQuotaGo.read d res).2 = ReadOutcome.saved d2 →
        d2.bucket = d.bucket ∧ d2.uid = d.uid) ∧
    (∀ (d d2 : BucketQuotaGo.Model) (b : BucketInfo),
      (BucketQuotaGo.read d (Except.ok b)).2 = ReadOutcome.saved d2 →
        d2.enabled = mergeField d.enabled b.bucketQuota.enabled ∧
        d2.maxSize = mergeField d.maxSize b.bucketQuota.maxSize ∧
        d2.maxSizeKB = mergeField d.maxSizeKB b.bucketQuota.maxSizeKb ∧
        d2.maxObjects = mergeField d.maxObjects b.bucketQuota.maxObjects) := by
  refine ⟨?_, ?_, ?_, ?_, ?_, ?_, ?_⟩
  · intro d d2 res h
    cases res with
    | error e => cases hb : e.isNoSuchUser <;> simp [UserQuotaGo.read, hb] at h
    | ok q =>
      by_cases hu : tfStringValue d.uid = q.uid
      · simp [UserQuotaGo.read, hu] at h
        exact h ▸ (userQuota_applyQuotaSpec_fields d q).1
      · simp [UserQuotaGo.read, hu] at h
  · intro d q hne
    simp [UserQuotaGo.read, hne]
  · intro d d2 q h
    by_cases hu : tfStringValue d.uid = q.uid
    · simp [UserQuotaGo.read, hu] at h
      exact h ▸ (userQuota_applyQuotaSpec_fields d q).2
    · simp [UserQuotaGo.read, hu] at h
  · intro d d2 res h
    cases res with
    | error e => cases hb : e.isNoSuchUser <;> simp [QuotaGo.read, hb] at h
    | ok q =>
      simp [QuotaGo.read] at h
      exact h ▸ ⟨(quotaGeneric_applyQuotaSpec_fields d q).1,
        (quotaGeneric_applyQuotaSpec_fields d q).2.1⟩
  · intro d d2 q h
    simp [QuotaGo.read] at h
    exact h ▸ (quotaGeneric_applyQuotaSpec_fields d q).2.2
  · intro d d2 res h
    cases res with
    | error e => cases hb : e.isNoSuchBucket <;> simp [BucketQuotaGo.read, hb] at h
    | ok b =>
      simp [BucketQuotaGo.read] at h
      exact h ▸ ⟨(quotaBucket_applyQuotaSpec_fields d b.bucketQuota).1,
        (quotaBucket_applyQuotaSpec_fields d b.bucketQuota).2.1⟩
  · intro d d2 b h
    simp [BucketQuotaGo.read] at h
    exact h ▸ (quotaBucket_applyQuotaSpec_fields d b.bucketQuota).2.2

/-- Witness for C10 at a concrete input: a matching-UID response overwrites
exactly the non-nil response fields and keeps the stored `max_size_kb`. -/
theorem quota_read_preserves_identifiers_witness :
    (UserQuotaGo.read sampleUserQuota (Except.ok sampleQuotaSpec)).2 =
      ReadOutcome.saved sampleUserQuotaRead ∧
    (sampleUserQuotaRead.enabled =
        mergeField sampleUserQuota.enabled sampleQuotaSpec.enabled ∧
      sampleUserQuotaRead.maxSize =
        mergeField sampleUserQuota.maxSize sampleQuotaSpec.maxSize ∧
      sampleUserQuotaRead.maxSizeKB =
        mergeField sampleUserQuota.maxSizeKB sampleQuotaSpec.maxSizeKb ∧
      sampleUserQuotaRead.maxObjects =
        mergeField sampleUserQuota.maxObjects sampleQuotaSpec.maxObjects) :=
  ⟨by decide,
    quota_read_preserves_identifiers.2.2.1 sampleUserQuota sampleUserQuotaRead
      sampleQuotaSpec (by decide)⟩

end TerraformRgw
